import Mathlib

/-!
Shallow embedding of the avarjoyas API server (src/server.js): an Express
backend with an admin auth gate (bcrypt password check + JWT session
tokens), CRUD handlers over a product catalog and a subscriber list, a
contact-form mail relay and a connectivity probe.  JSON response bodies
are modelled by the `Body` inductive, one constructor per body shape the
server emits.  The JWT library is external to the repository, so the
token codec is modelled symbolically from the spec (section 4.1): a
signature is the signed content paired with the signing secret, and
verification checks structural equality plus expiry.
-/

/-- Characters used by the header-splitting and email-regex models. -/
def spaceChar : Char := ' '

/-- The at-sign, the separator of the email regex. -/
def atChar : Char := '@'

/-- The dot required in the domain part of the email regex. -/
def dotChar : Char := '.'

/-- A catalog item, one row of the `productos` table.  Optional columns
(`imagen`, `nueva_coleccion`) may be null. -/
structure Producto where
  id : Nat
  nombre : String
  precio : Int
  categoria : String
  stock : Int
  imagen : Option String
  nueva_coleccion : Option Bool
  deriving DecidableEq

/-- A subscriber, one row of the `suscriptores` table.  `fecha` is the
server-assigned timestamp rendered as a YYYY-MM-DD string. -/
structure Suscriptor where
  id : Nat
  email : String
  fecha : String
  deriving DecidableEq

/-- Modelled from the spec: a JWT signature, symbolic.  Producing it
requires the secret and binds the signed payload; verification compares
it against the expected signature for the token at hand. -/
structure Sig where
  secret : String
  user : String
  iat : Nat
  exp : Nat
  deriving DecidableEq

/-- Modelled from the spec: a structurally well-formed session token,
carrying the identity claim `user`, issue time, expiry and signature. -/
structure Token where
  user : String
  iat : Nat
  exp : Nat
  sig : Sig
  deriving DecidableEq

/-- A token string as seen by the verifier after parsing: either a
well-formed token or structurally malformed garbage. -/
inductive RawToken where
  | wf (t : Token)
  | malformed
  deriving DecidableEq

/-- JSON response bodies emitted by the server, one constructor per
shape that appears in src/server.js. -/
inductive Body where
  /-- Empty body, as sent by `res.sendStatus(204)`. -/
  | empty
  /-- An object with a single `error` string field. -/
  | errorMsg (e : String)
  /-- The contact-relay failure body: `error` plus `detalle` holding the
  provider error message (src/server.js lines 273-276). -/
  | errorDetalle (e detalle : String)
  /-- The login success body holding the signed token. -/
  | tokenBody (t : Token)
  /-- The auth-check success body: `ok: true` plus the claim `user`. -/
  | okUser (u : String)
  /-- An object with a single `message` string field. -/
  | message (m : String)
  /-- An object with a single `success` string field (contact success). -/
  | successMsg (m : String)
  /-- The product create/update success body: `mensaje` plus `producto`. -/
  | mensajeProducto (m : String) (p : Producto)
  /-- An array of catalog items. -/
  | productos (l : List Producto)
  /-- An array of subscribers. -/
  | suscriptores (l : List Suscriptor)
  /-- The connectivity-probe success body: `ok: true` plus the time row. -/
  | okTime (t : String)
  /-- The connectivity-probe failure body: `ok: false` plus an `error`
  field echoing the caught error message (src/server.js line 244). -/
  | okFalseError (e : String)
  deriving DecidableEq

/-- An HTTP response: status code and JSON body. -/
structure Resp where
  status : Nat
  body : Body
  deriving DecidableEq

/-- Truthiness of an optional string under JS coercion: absent (null or
undefined) and the empty string are falsy. -/
def falsyS : Option String → Bool
  | none => true
  | some s => s = ""

/-- Modelled from the spec: `jwt.sign`.  Issues a token binding the
claim `user` with expiry `now + 8 * 3600` seconds (the `expiresIn: 8h`
option at src/server.js line 71), signed with `secret`. -/
def issueToken (secret user : String) (now : Nat) : Token :=
  ⟨user, now, now + 8 * 3600, ⟨secret, user, now, now + 8 * 3600⟩⟩

/-- Modelled from the spec: `jwt.verify`.  Fails on malformed structure,
on a signature that does not match the payload under `secret`, or when
the current time is at or past the expiry; otherwise returns the
embedded identity claim. -/
def verifyTok (secret : String) (now : Nat) : RawToken → Option String
  | .malformed => none
  | .wf t =>
    if t.sig = ⟨secret, t.user, t.iat, t.exp⟩ ∧ now < t.exp then some t.user
    else none

/-- Splitting a character list at every occurrence of `sep`, the model
of the JS `String.prototype.split` with a single-character separator. -/
def splitOnChar (sep : Char) : List Char → List (List Char)
  | [] => [[]]
  | c :: cs =>
    if c = sep then [] :: splitOnChar sep cs
    else
      match splitOnChar sep cs with
      | [] => [[c]]
      | r :: rs => (c :: r) :: rs

/-- Token extraction of `requireAuth` and `/api/auth-check`:
`auth.split(" ")[1]` followed by the JS falsiness check on the result
(src/server.js lines 34-36 and 78-81).  The scheme word is never
inspected. -/
def extractToken (hdr : List Char) : Option (List Char) :=
  match (splitOnChar spaceChar hdr).get? 1 with
  | some (c :: cs) => some (c :: cs)
  | _ => none

/-- Outcome of the authentication middleware. -/
inductive AuthOutcome where
  | missing
  | invalid
  | authorized (u : String)
  deriving DecidableEq

/-- The `requireAuth` middleware (src/server.js lines 33-45): extract
the second space-separated word of the Authorization header, then run
the verifier on its parse.  `parse` is the external base64/JSON decoding
done inside `jwt.verify`. -/
def requireAuth (parse : List Char → RawToken) (secret : String) (now : Nat)
    (hdr : List Char) : AuthOutcome :=
  match extractToken hdr with
  | none => .missing
  | some ts =>
    match verifyTok secret now (parse ts) with
    | none => .invalid
    | some u => .authorized u

/-- Result of running a protected route: the response, the store state
after the call, and whether the handler body executed. -/
structure Guarded (σ : Type) where
  resp : Resp
  state : σ
  ran : Bool
  deriving DecidableEq

/-- Application of `requireAuth` in front of a handler, as Express does
for the five protected routes.  On a missing token the response is 401
`Token faltante`; on a failed verification 401 `Token inválido`; in both
cases the handler body never executes and the store is untouched. -/
def protect {σ : Type} (parse : List Char → RawToken) (secret : String)
    (now : Nat) (hdr : List Char) (s : σ) (handler : String → Resp × σ) :
    Guarded σ :=
  match requireAuth parse secret now hdr with
  | .missing => ⟨⟨401, .errorMsg "Token faltante"⟩, s, false⟩
  | .invalid => ⟨⟨401, .errorMsg "Token inválido"⟩, s, false⟩
  | .authorized u =>
    match handler u with
    | (r, s2) => ⟨r, s2, true⟩

/-- The `/api/auth-check` route (src/server.js lines 77-89): the same
extraction and verification as `requireAuth`, answering 200 with the
claim on success. -/
def authCheck (parse : List Char → RawToken) (secret : String) (now : Nat)
    (hdr : List Char) : Resp :=
  match requireAuth parse secret now hdr with
  | .missing => ⟨401, .errorMsg "Token faltante"⟩
  | .invalid => ⟨401, .errorMsg "Token inválido"⟩
  | .authorized u => ⟨200, .okUser u⟩

/-- Result of a login call: the response, whether the bcrypt comparison
was executed, and the token issued on success. -/
structure LoginResult where
  resp : Resp
  hashExecuted : Bool
  issued : Option Token
  deriving DecidableEq

/-- The `/api/login` route (src/server.js lines 48-74).  `bcompare`
models `bcrypt.compare` (external).  Absent credentials give 400; a
missing ADMIN_USER or ADMIN_PASS_HASH gives 500; a username differing
from ADMIN_USER returns 401 before the hash comparison runs (line 62);
otherwise the comparison decides between 401 and a signed token. -/
def login (bcompare : String → String → Bool)
    (adminUser adminHash : Option String) (secret : String) (now : Nat)
    (user password : Option String) : LoginResult :=
  if falsyS user || falsyS password then
    ⟨⟨400, .errorMsg "Credenciales faltantes"⟩, false, none⟩
  else if falsyS adminUser || falsyS adminHash then
    ⟨⟨500, .errorMsg "Autenticación no configurada"⟩, false, none⟩
  else
    let u := user.getD ""
    let au := adminUser.getD ""
    let ah := adminHash.getD ""
    if u ≠ au then
      ⟨⟨401, .errorMsg "Usuario o contraseña incorrectos"⟩, false, none⟩
    else if bcompare (password.getD "") ah then
      ⟨⟨200, .tokenBody (issueToken secret u now)⟩, true,
        some (issueToken secret u now)⟩
    else
      ⟨⟨401, .errorMsg "Usuario o contraseña incorrectos"⟩, true, none⟩

/-- State of the `productos` table: rows plus the generator of the next
serial id. -/
structure ProdStore where
  rows : List Producto
  nextId : Nat
  deriving DecidableEq

/-- State of the `suscriptores` table. -/
structure SubStore where
  rows : List Suscriptor
  nextId : Nat
  deriving DecidableEq

/-- Request body of the product create/update routes; each field is
optional, as JSON fields are. -/
structure ProductoBody where
  nombre : Option String
  precio : Option Int
  categoria : Option String
  stock : Option Int
  imagen : Option String
  nueva_coleccion : Option Bool
  deriving DecidableEq

/-- The shared validation of POST and PUT `/api/productos` (src/server.js
lines 105 and 132): `!nombre || precio == null || !categoria ||
stock == null`.  Note `== null` lets the number 0 pass, while `!` would
not. -/
def productoInvalid (b : ProductoBody) : Bool :=
  falsyS b.nombre || b.precio == none || falsyS b.categoria || b.stock == none

/-- A character admitted by the email regex character class, the JS
negated class of whitespace and the at-sign. -/
def emailChar (c : Char) : Bool := !c.isWhitespace && c ≠ atChar

/-- Presence of a dot that is neither the first nor the last character,
the shape the tail of the email regex demands of the domain part. -/
def hasInnerDot (l : List Char) : Bool := ((l.drop 1).dropLast).contains dotChar

/-- The email regex of `/api/suscribirse` (src/server.js line 175) on a
character list: one run of non-space non-at characters, an at-sign, then
a domain containing an interior dot. -/
def validEmailL (cs : List Char) : Bool :=
  match splitOnChar atChar cs with
  | [loc, dom] =>
    !loc.isEmpty && loc.all emailChar && !dom.isEmpty && dom.all emailChar &&
      hasInnerDot dom
  | _ => false

/-- The email regex on strings. -/
def validEmail (s : String) : Bool := validEmailL s.toList

/-- Handler body of POST `/api/suscribirse` (src/server.js lines
172-197), healthy-datastore path.  A falsy or regex-rejected email gives
400; the insert is `ON CONFLICT (email) DO NOTHING RETURNING ...`, so a
duplicate email touches no row and answers 200, a fresh one inserts and
answers 201. -/
def suscribirseHandler (fecha : String) (email : Option String)
    (s : SubStore) : Resp × SubStore :=
  if falsyS email || !validEmail (email.getD "") then
    (⟨400, .errorMsg "Correo electrónico no válido"⟩, s)
  else
    let e := email.getD ""
    if s.rows.any (fun r => r.email = e) then
      (⟨200, .message "Ya estás suscrito 🥰"⟩, s)
    else
      (⟨201, .message "¡Gracias por suscribirte! 💌"⟩,
        ⟨s.rows ++ [⟨s.nextId, e, fecha⟩], s.nextId + 1⟩)

/-- Handler body of POST `/api/productos` (src/server.js lines 101-125),
healthy-datastore path: validate, insert with a fresh serial id, answer
201 with the inserted row. -/
def postProductosHandler (b : ProductoBody) (s : ProdStore) :
    Resp × ProdStore :=
  if productoInvalid b then
    (⟨400, .errorMsg "Faltan campos obligatorios"⟩, s)
  else
    let p : Producto :=
      ⟨s.nextId, b.nombre.getD "", b.precio.getD 0, b.categoria.getD "",
        b.stock.getD 0, b.imagen, b.nueva_coleccion⟩
    (⟨201, .mensajeProducto "✅ Producto agregado correctamente" p⟩,
      ⟨s.rows ++ [p], s.nextId + 1⟩)

/-- Handler body of PUT `/api/productos/:id` (src/server.js lines
127-157): validate, update the row with the given id, 404 when no row
was touched, else 200 with the updated row. -/
def putProductoHandler (idv : Nat) (b : ProductoBody) (s : ProdStore) :
    Resp × ProdStore :=
  if productoInvalid b then
    (⟨400, .errorMsg "Faltan campos obligatorios"⟩, s)
  else
    let p : Producto :=
      ⟨idv, b.nombre.getD "", b.precio.getD 0, b.categoria.getD "",
        b.stock.getD 0, b.imagen, b.nueva_coleccion⟩
    if s.rows.countP (fun q => q.id = idv) = 0 then
      (⟨404, .errorMsg "Producto no encontrado"⟩, s)
    else
      (⟨200, .mensajeProducto "✅ Producto actualizado correctamente" p⟩,
        ⟨s.rows.map (fun q => if q.id = idv then p else q), s.nextId⟩)

/-- Handler body of DELETE `/api/productos/:id` (src/server.js lines
160-169): a bare DELETE query followed by `res.sendStatus(204)` — the
row count is never consulted, so the answer is 204 whether or not a row
existed. -/
def deleteProductoHandler (idv : Nat) (s : ProdStore) : Resp × ProdStore :=
  (⟨204, .empty⟩, ⟨s.rows.filter (fun q => q.id ≠ idv), s.nextId⟩)

/-- Handler body of DELETE `/api/suscriptores/:id` (src/server.js lines
222-236): `RETURNING *` exposes the row count; zero rows gives 404, else
200 with a message object. -/
def deleteSuscriptorHandler (idv : Nat) (s : SubStore) : Resp × SubStore :=
  if s.rows.countP (fun q => q.id = idv) = 0 then
    (⟨404, .errorMsg "Suscriptor no encontrado"⟩, s)
  else
    (⟨200, .message "Suscriptor eliminado correctamente ✅"⟩,
      ⟨s.rows.filter (fun q => q.id ≠ idv), s.nextId⟩)

/-- The row list returned by GET `/api/productos` (src/server.js line
93): `SELECT * FROM productos ORDER BY id DESC`, modelled by insertion
sort under the descending-id relation. -/
def getProductosRows (s : ProdStore) : List Producto :=
  s.rows.insertionSort (fun a b => b.id ≤ a.id)

/-- The GET `/api/productos` route, healthy-datastore path. -/
def getProductos (s : ProdStore) : Resp :=
  ⟨200, .productos (getProductosRows s)⟩

/-- Test whether `pat` is a leading segment of `hay`. -/
def leadsWith : List Char → List Char → Bool
  | [], _ => true
  | _ :: _, [] => false
  | p :: ps, h :: hs => p = h && leadsWith ps hs

/-- Test whether `pat` occurs contiguously inside `hay`. -/
def occursIn : List Char → List Char → Bool
  | pat, [] => pat.isEmpty
  | pat, h :: hs => leadsWith pat (h :: hs) || occursIn pat hs

/-- Case-insensitive substring test, the model of `ILIKE '%s%'` for a
search term free of SQL wildcard characters. -/
def containsCI (hay pat : String) : Bool :=
  occursIn pat.toLower.toList hay.toLower.toList

/-- Handler body of GET `/api/suscriptores` (src/server.js lines
199-220), healthy-datastore path: filter rows whose email or formatted
date matches the search term, order by date descending, then apply
offset and limit. -/
def getSuscriptoresHandler (search : String) (limitN offsetN : Nat)
    (s : SubStore) : Resp :=
  let matched := s.rows.filter
    (fun r => containsCI r.email search || containsCI r.fecha search)
  let ordered := matched.insertionSort (fun a b => b.fecha ≤ a.fecha)
  ⟨200, .suscriptores ((ordered.drop offsetN).take limitN)⟩

/-- Catch branch of GET `/api/productos` (src/server.js line 97): a
fixed generic body, independent of the caught error `e`. -/
def getProductosErr (e : String) : Resp :=
  ⟨500, .errorMsg "Error al obtener productos"⟩

/-- Catch branch of POST `/api/productos` (src/server.js line 123). -/
def postProductosErr (e : String) : Resp :=
  ⟨500, .errorMsg "Error al agregar producto"⟩

/-- Catch branch of PUT `/api/productos/:id` (src/server.js line 155). -/
def putProductoErr (e : String) : Resp :=
  ⟨500, .errorMsg "Error al actualizar producto"⟩

/-- Catch branch of DELETE `/api/productos/:id` (src/server.js line 167). -/
def deleteProductoErr (e : String) : Resp :=
  ⟨500, .errorMsg "Error al eliminar producto"⟩

/-- Catch branch of POST `/api/suscribirse` (src/server.js line 195). -/
def suscribirseErr (e : String) : Resp :=
  ⟨500, .errorMsg "Error al registrar la suscripción"⟩

/-- Catch branch of GET `/api/suscriptores` (src/server.js line 218). -/
def getSuscriptoresErr (e : String) : Resp :=
  ⟨500, .errorMsg "Error al obtener la lista de suscriptores"⟩

/-- Catch branch of DELETE `/api/suscriptores/:id` (src/server.js line
234). -/
def deleteSuscriptorErr (e : String) : Resp :=
  ⟨500, .errorMsg "Error al eliminar el suscriptor"⟩

/-- Catch branch of GET `/api/test` (src/server.js line 244): the body
echoes `err.message` in its `error` field. -/
def apiTestErr (e : String) : Resp :=
  ⟨500, .okFalseError e⟩

/-- Catch branch of POST `/api/contacto` (src/server.js lines 273-276):
a generic `error` field plus a `detalle` field echoing the provider
error message. -/
def contactoErr (e : String) : Resp :=
  ⟨500, .errorDetalle "No se pudo enviar el mensaje. Intenta más tarde." e⟩

/-- Request body of the contact route. -/
structure ContactBody where
  nombre : Option String
  email : Option String
  mensaje : Option String
  deriving DecidableEq

/-- The POST `/api/contacto` route (src/server.js lines 248-278).
`relay` is the outcome of the external mail-provider call; the boolean
in the result records whether that call was reached.  Any falsy field
short-circuits to 400 before the relay is invoked. -/
def contactoRoute (b : ContactBody) (relay : Except String Unit) :
    Resp × Bool :=
  if falsyS b.nombre || falsyS b.email || falsyS b.mensaje then
    (⟨400, .errorMsg "Todos los campos son obligatorios."⟩, false)
  else
    match relay with
    | .ok _ => (⟨200, .successMsg "Mensaje enviado correctamente ✅"⟩, true)
    | .error e => (contactoErr e, true)

/-- The protected POST `/api/productos` route: `requireAuth` in front of
the create handler. -/
def postProductosRoute (parse : List Char → RawToken) (secret : String)
    (now : Nat) (hdr : List Char) (b : ProductoBody) (s : ProdStore) :
    Guarded ProdStore :=
  protect parse secret now hdr s (fun _ => postProductosHandler b s)

/-- The protected PUT `/api/productos/:id` route. -/
def putProductoRoute (parse : List Char → RawToken) (secret : String)
    (now : Nat) (hdr : List Char) (idv : Nat) (b : ProductoBody)
    (s : ProdStore) : Guarded ProdStore :=
  protect parse secret now hdr s (fun _ => putProductoHandler idv b s)

/-- The protected DELETE `/api/productos/:id` route. -/
def deleteProductoRoute (parse : List Char → RawToken) (secret : String)
    (now : Nat) (hdr : List Char) (idv : Nat) (s : ProdStore) :
    Guarded ProdStore :=
  protect parse secret now hdr s (fun _ => deleteProductoHandler idv s)

/-- The protected GET `/api/suscriptores` route. -/
def getSuscriptoresRoute (parse : List Char → RawToken) (secret : String)
    (now : Nat) (hdr : List Char) (search : String) (limitN offsetN : Nat)
    (s : SubStore) : Guarded SubStore :=
  protect parse secret now hdr s
    (fun _ => (getSuscriptoresHandler search limitN offsetN s, s))

/-- The protected DELETE `/api/suscriptores/:id` route. -/
def deleteSuscriptorRoute (parse : List Char → RawToken) (secret : String)
    (now : Nat) (hdr : List Char) (idv : Nat) (s : SubStore) :
    Guarded SubStore :=
  protect parse secret now hdr s (fun _ => deleteSuscriptorHandler idv s)

theorem splitOnChar_nosep (sep : Char) (l : List Char)
    (h : ∀ c ∈ l, c ≠ sep) : splitOnChar sep l = [l] := by
  induction l with
  | nil => rfl
  | cons c cs ih =>
    have hc : c ≠ sep := h c (by simp)
    have ih2 := ih (fun x hx => h x (by simp [hx]))
    simp [splitOnChar, hc, ih2]

theorem splitOnChar_append (sep : Char) (a b : List Char)
    (h : ∀ c ∈ a, c ≠ sep) :
    splitOnChar sep (a ++ sep :: b) = a :: splitOnChar sep b := by
  induction a with
  | nil => simp [splitOnChar]
  | cons c cs ih =>
    have hc : c ≠ sep := h c (by simp)
    have ih2 := ih (fun x hx => h x (by simp [hx]))
    simp [splitOnChar, hc, ih2]

theorem extractToken_scheme (scheme t : List Char)
    (hs : ∀ c ∈ scheme, c ≠ spaceChar) (ht : ∀ c ∈ t, c ≠ spaceChar)
    (hne : t ≠ []) : extractToken (scheme ++ spaceChar :: t) = some t := by
  unfold extractToken
  rw [splitOnChar_append _ _ _ hs, splitOnChar_nosep _ _ ht]
  cases t with
  | nil => exact absurd rfl hne
  | cons c cs => rfl

theorem extractToken_nospace (t : List Char) (ht : ∀ c ∈ t, c ≠ spaceChar) :
    extractToken t = none := by
  unfold extractToken
  rw [splitOnChar_nosep _ _ ht]
  rfl

theorem verifyTok_some_inv {secret : String} {now : Nat} {rt : RawToken}
    {u : String} (h : verifyTok secret now rt = some u) :
    ∃ t, rt = .wf t ∧ t.sig = ⟨secret, t.user, t.iat, t.exp⟩ ∧ now < t.exp ∧
      u = t.user := by
  cases rt with
  | malformed => simp [verifyTok] at h
  | wf t =>
    simp only [verifyTok] at h
    by_cases hc : t.sig = ⟨secret, t.user, t.iat, t.exp⟩ ∧ now < t.exp
    · rw [if_pos hc] at h
      exact ⟨t, rfl, hc.1, hc.2, (Option.some.inj h).symm⟩
    · rw [if_neg hc] at h
      cases h

theorem requireAuth_authorized_iff (parse : List Char → RawToken)
    (secret : String) (now : Nat) (hdr : List Char) (u : String) :
    requireAuth parse secret now hdr = .authorized u ↔
      ∃ ts, extractToken hdr = some ts ∧
        verifyTok secret now (parse ts) = some u := by
  unfold requireAuth
  cases hext : extractToken hdr with
  | none => simp
  | some ts =>
    cases hv : verifyTok secret now (parse ts) with
    | none => simp [hv]
    | some w => simp [hv]

/-- C1: a request to a protected route (the five routes built from
`protect`: POST/PUT/DELETE productos, GET/DELETE suscriptores) runs its
handler body exactly when the Authorization header carries a token the
verifier accepts, and — given that every token parsed from the header
whose signature was made with the process secret was minted by the
login path for the admin username — the accepted claim is the admin
username; otherwise the response status is 401 and the handler never
runs, leaving the store untouched. -/
theorem protect_gates_on_admin_token {σ : Type} (parse : List Char → RawToken)
    (secret adminUser : String) (now : Nat) (hdr : List Char) (s : σ)
    (handler : String → Resp × σ)
    (hMint : ∀ ts t, extractToken hdr = some ts → parse ts = RawToken.wf t →
      t.sig.secret = secret → t.sig.user = adminUser) :
    ((protect parse secret now hdr s handler).ran = true ↔
      ∃ ts, extractToken hdr = some ts ∧
        verifyTok secret now (parse ts) = some adminUser)
    ∧ ((protect parse secret now hdr s handler).ran = false →
        (protect parse secret now hdr s handler).resp.status = 401
        ∧ (protect parse secret now hdr s handler).state = s) := by
  cases hreq : requireAuth parse secret now hdr with
  | missing =>
    refine ⟨⟨fun hran => ?_, fun ⟨ts, hts, hv⟩ => ?_⟩, fun _ => ?_⟩
    · simp [protect, hreq] at hran
    · have := (requireAuth_authorized_iff parse secret now hdr adminUser).mpr
        ⟨ts, hts, hv⟩
      rw [hreq] at this
      cases this
    · simp [protect, hreq]
  | invalid =>
    refine ⟨⟨fun hran => ?_, fun ⟨ts, hts, hv⟩ => ?_⟩, fun _ => ?_⟩
    · simp [protect, hreq] at hran
    · have := (requireAuth_authorized_iff parse secret now hdr adminUser).mpr
        ⟨ts, hts, hv⟩
      rw [hreq] at this
      cases this
    · simp [protect, hreq]
  | authorized u =>
    obtain ⟨ts, hts, hv⟩ :=
      (requireAuth_authorized_iff parse secret now hdr u).mp hreq
    obtain ⟨t, hwf, hsig, _, huser⟩ := verifyTok_some_inv hv
    have hadmin : u = adminUser := by
      have h1 := hMint ts t hts hwf (by rw [hsig])
      rw [hsig] at h1
      exact huser.trans h1
    refine ⟨⟨fun _ => ⟨ts, hts, hadmin ▸ hv⟩, fun _ => ?_⟩, fun hran => ?_⟩
    · simp [protect, hreq]
    · simp [protect, hreq] at hran

/-- Witness for C1 at a concrete request: a Bearer header holding a
token minted by login for the admin makes the handler run, and the same
request with an empty header is rejected with 401, handler not run. -/
theorem protect_gates_on_admin_token_witness :
    ((protect (fun _ => RawToken.wf (issueToken "sec" "admin" 0)) "sec" 5
        "Bearer x".toList (0 : Nat) (fun _ => (⟨200, .empty⟩, 1))).ran = true ↔
      ∃ ts, extractToken "Bearer x".toList = some ts ∧
        verifyTok "sec" 5 ((fun _ => RawToken.wf (issueToken "sec" "admin" 0)) ts)
          = some "admin")
    ∧ ((protect (fun _ => RawToken.wf (issueToken "sec" "admin" 0)) "sec" 5
        "Bearer x".toList (0 : Nat) (fun _ => (⟨200, .empty⟩, 1))).ran = false →
        (protect (fun _ => RawToken.wf (issueToken "sec" "admin" 0)) "sec" 5
          "Bearer x".toList (0 : Nat) (fun _ => (⟨200, .empty⟩, 1))).resp.status = 401
        ∧ (protect (fun _ => RawToken.wf (issueToken "sec" "admin" 0)) "sec" 5
          "Bearer x".toList (0 : Nat) (fun _ => (⟨200, .empty⟩, 1))).state = 0) :=
  protect_gates_on_admin_token (fun _ => RawToken.wf (issueToken "sec" "admin" 0))
    "sec" "admin" 5 "Bearer x".toList 0 (fun _ => (⟨200, .empty⟩, 1))
    (by intro ts t _ hpt _; cases hpt; rfl)

/-- C9: the middleware takes the second space-separated word of the
Authorization header without inspecting the scheme word, so any scheme
followed by a valid token is accepted, while a bare token with no space
is answered 401 `Token faltante` as if no token had been sent. -/
theorem requireAuth_ignores_scheme (parse : List Char → RawToken)
    (secret : String) (now : Nat) (scheme t : List Char) (u : String)
    (hs : ∀ c ∈ scheme, c ≠ spaceChar) (ht : ∀ c ∈ t, c ≠ spaceChar)
    (hne : t ≠ []) (hv : verifyTok secret now (parse t) = some u) :
    requireAuth parse secret now (scheme ++ spaceChar :: t) = .authorized u
    ∧ requireAuth parse secret now t = .missing
    ∧ authCheck parse secret now t = ⟨401, .errorMsg "Token faltante"⟩ := by
  have h1 := extractToken_scheme scheme t hs ht hne
  have h2 := extractToken_nospace t ht
  refine ⟨?_, ?_, ?_⟩
  · simp [requireAuth, h1, hv]
  · simp [requireAuth, h2]
  · simp [authCheck, requireAuth, h2]

/-- Witness for C9: the scheme word `Custom` is accepted in front of a
valid token, and the bare token alone is rejected as missing. -/
theorem requireAuth_ignores_scheme_witness :
    requireAuth (fun _ => RawToken.wf (issueToken "sec" "admin" 0)) "sec" 5
      ("Custom".toList ++ spaceChar :: "abc".toList) = .authorized "admin"
    ∧ requireAuth (fun _ => RawToken.wf (issueToken "sec" "admin" 0)) "sec" 5
      "abc".toList = .missing
    ∧ authCheck (fun _ => RawToken.wf (issueToken "sec" "admin" 0)) "sec" 5
      "abc".toList = ⟨401, .errorMsg "Token faltante"⟩ :=
  requireAuth_ignores_scheme (fun _ => RawToken.wf (issueToken "sec" "admin" 0))
    "sec" 5 "Custom".toList "abc".toList "admin" (by decide) (by decide)
    (by decide) (by decide)

/-- C5: verification fails exactly on a malformed structure, a signature
that does not match the payload under the process secret, or a current
time at or past the expiry; otherwise it returns the embedded claim.  A
token issued by login expires 8 hours (28800 seconds) after issuance. -/
theorem verify_spec (secret : String) (now : Nat) (rt : RawToken) :
    ((verifyTok secret now rt = none) ↔
      (rt = .malformed ∨ ∃ t, rt = .wf t ∧
        (t.sig ≠ ⟨secret, t.user, t.iat, t.exp⟩ ∨ t.exp ≤ now)))
    ∧ (∀ u, verifyTok secret now rt = some u →
        ∃ t, rt = .wf t
          ∧ t.sig = ⟨secret, t.user, t.iat, t.exp⟩ ∧ now < t.exp ∧ u = t.user)
    ∧ (∀ user t0, (issueToken secret user t0).exp = t0 + 8 * 3600
        ∧ verifyTok secret now (.wf (issueToken secret user t0))
            = if now < t0 + 8 * 3600 then some user else none) := by
  refine ⟨?_, ?_, ?_⟩
  · cases rt with
    | malformed => simp [verifyTok]
    | wf t =>
      simp only [verifyTok]
      by_cases hc : t.sig = ⟨secret, t.user, t.iat, t.exp⟩ ∧ now < t.exp
      · rw [if_pos hc]
        simp only [reduceCtorEq, false_iff, not_or]
        constructor
        · simp
        · rintro ⟨t2, ht2, hbad⟩
          obtain rfl : t2 = t := by injection ht2.symm
          rcases hbad with hbad | hbad
          · exact hbad hc.1
          · exact absurd hc.2 (Nat.not_lt.mpr hbad)
      · rw [if_neg hc]
        simp only [true_iff]
        refine Or.inr ⟨t, rfl, ?_⟩
        by_cases h1 : t.sig = ⟨secret, t.user, t.iat, t.exp⟩
        · exact Or.inr (Nat.not_lt.mp (fun h2 => hc ⟨h1, h2⟩))
        · exact Or.inl h1
  · intro u h
    exact verifyTok_some_inv h
  · intro user t0
    refine ⟨rfl, ?_⟩
    by_cases h : now < t0 + 8 * 3600
    · simp [verifyTok, issueToken, h]
    · simp [verifyTok, issueToken, h]

/-- Witness for C5: an issued token verifies one second before its
8-hour expiry and is rejected exactly at it. -/
theorem verify_spec_witness :
    verifyTok "sec" 28799 (.wf (issueToken "sec" "admin" 0)) = some "admin"
    ∧ verifyTok "sec" 28800 (.wf (issueToken "sec" "admin" 0)) = none := by
  have h1 := ((verify_spec "sec" 28799
    (.wf (issueToken "sec" "admin" 0))).2.2 "admin" 0).2
  have h2 := ((verify_spec "sec" 28800
    (.wf (issueToken "sec" "admin" 0))).2.2 "admin" 0).2
  rw [if_pos (by decide)] at h1
  rw [if_neg (by decide)] at h2
  exact ⟨h1, h2⟩

/-- Counterexample to C2: with both credentials present and the admin
identity configured, a submission under an unknown username returns 401
without the bcrypt comparison ever executing — the guard at
src/server.js line 62 exits before `bcrypt.compare` is reached. -/
theorem login_skips_hash_on_unknown_user :
    (login (fun _ _ => true) (some "admin") (some "h") "sec" 0
      (some "eve") (some "pw")).hashExecuted = false
    ∧ (login (fun _ _ => true) (some "admin") (some "h") "sec" 0
      (some "eve") (some "pw")).resp.status = 401 := by decide

/-- C2 amended: the unknown-username branch exits before the hash
comparison (so the timing-uniformity half of the claim fails), but the
failure response for an unknown username is identical to the one for
the right username with a wrong password. -/
theorem login_uniform_failure_body (bcompare : String → String → Bool)
    (au ah secret : String) (now : Nat) (u p p2 : String)
    (hu : u ≠ "") (hp : p ≠ "") (hp2 : p2 ≠ "") (hau : au ≠ "") (hah : ah ≠ "")
    (hne : u ≠ au) (hbad : bcompare p2 ah = false) :
    (login bcompare (some au) (some ah) secret now (some u) (some p)).resp
      = ⟨401, .errorMsg "Usuario o contraseña incorrectos"⟩
    ∧ (login bcompare (some au) (some ah) secret now (some au) (some p2)).resp
      = ⟨401, .errorMsg "Usuario o contraseña incorrectos"⟩
    ∧ (login bcompare (some au) (some ah) secret now (some u) (some p)).resp
      = (login bcompare (some au) (some ah) secret now (some au) (some p2)).resp
    ∧ (login bcompare (some au) (some ah) secret now (some u)
        (some p)).hashExecuted = false
    ∧ (login bcompare (some au) (some ah) secret now (some au)
        (some p2)).hashExecuted = true := by
  have h1 : login bcompare (some au) (some ah) secret now (some u) (some p)
      = ⟨⟨401, .errorMsg "Usuario o contraseña incorrectos"⟩, false, none⟩ := by
    simp [login, falsyS, hu, hp, hau, hah, hne]
  have h2 : login bcompare (some au) (some ah) secret now (some au) (some p2)
      = ⟨⟨401, .errorMsg "Usuario o contraseña incorrectos"⟩, true, none⟩ := by
    simp [login, falsyS, hp2, hau, hah, hbad]
  rw [h1, h2]
  exact ⟨rfl, rfl, rfl, rfl, rfl⟩

/-- Witness for C2 amended, at concrete credentials. -/
theorem login_uniform_failure_body_witness :
    (login (fun _ _ => false) (some "admin") (some "h") "sec" 0
      (some "eve") (some "pw")).resp
      = ⟨401, .errorMsg "Usuario o contraseña incorrectos"⟩
    ∧ (login (fun _ _ => false) (some "admin") (some "h") "sec" 0
      (some "admin") (some "wrong")).resp
      = ⟨401, .errorMsg "Usuario o contraseña incorrectos"⟩
    ∧ (login (fun _ _ => false) (some "admin") (some "h") "sec" 0
      (some "eve") (some "pw")).resp
      = (login (fun _ _ => false) (some "admin") (some "h") "sec" 0
      (some "admin") (some "wrong")).resp
    ∧ (login (fun _ _ => false) (some "admin") (some "h") "sec" 0
      (some "eve") (some "pw")).hashExecuted = false
    ∧ (login (fun _ _ => false) (some "admin") (some "h") "sec" 0
      (some "admin") (some "wrong")).hashExecuted = true :=
  login_uniform_failure_body (fun _ _ => false) "admin" "h" "sec" 0
    "eve" "pw" "wrong" (by decide) (by decide) (by decide) (by decide)
    (by decide) (by decide) (by decide)

/-- Counterexample to C3: deleting a catalog item id that does not
exist answers 204, not the claimed 404 — the handler never reads the
row count (src/server.js lines 160-169). -/
theorem delete_producto_no_404 :
    (deleteProductoHandler 1 ⟨[], 0⟩).1.status = 204
    ∧ ¬ (deleteProductoHandler 1 ⟨[], 0⟩).1.status = 404 := by decide

/-- C3 amended: DELETE productos answers 204 with an empty body whether
or not the id exists (no not-found mapping, store untouched when the id
is absent), while DELETE suscriptores maps zero affected rows to 404
and success to 200 with a message object. -/
theorem delete_routes_statuses (s : ProdStore) (t : SubStore)
    (idp ids : Nat) :
    ((deleteProductoHandler idp s).1 = ⟨204, .empty⟩)
    ∧ (s.rows.countP (fun q => q.id = idp) = 0 →
        (deleteProductoHandler idp s).2 = s)
    ∧ (t.rows.countP (fun q => q.id = ids) = 0 →
        deleteSuscriptorHandler ids t
          = (⟨404, .errorMsg "Suscriptor no encontrado"⟩, t))
    ∧ (t.rows.countP (fun q => q.id = ids) ≠ 0 →
        (deleteSuscriptorHandler ids t).1
          = ⟨200, .message "Suscriptor eliminado correctamente ✅"⟩) := by
  refine ⟨rfl, fun h => ?_, fun h => ?_, fun h => ?_⟩
  · have hall : ∀ q ∈ s.rows, q.id ≠ idp := by
      intro q hq
      simpa using List.countP_eq_zero.mp h q hq
    have hfil : s.rows.filter (fun q => q.id ≠ idp) = s.rows :=
      List.filter_eq_self.mpr (fun q hq => by simpa using hall q hq)
    show (⟨s.rows.filter (fun q => q.id ≠ idp), s.nextId⟩ : ProdStore) = s
    rw [hfil]
  · simp [deleteSuscriptorHandler, h]
  · simp [deleteSuscriptorHandler, h]

/-- Witness for C3 amended: deleting id 7 from an empty catalog gives
204 and leaves the store empty; deleting subscriber id 2 from a store
holding only id 1 gives 404 with the store untouched. -/
theorem delete_routes_statuses_witness :
    (deleteProductoHandler 7 ⟨[], 0⟩).1 = ⟨204, .empty⟩
    ∧ (deleteProductoHandler 7 ⟨[], 0⟩).2 = (⟨[], 0⟩ : ProdStore)
    ∧ deleteSuscriptorHandler 2 ⟨[⟨1, "a@b.c", "2024-01-01"⟩], 2⟩
      = (⟨404, .errorMsg "Suscriptor no encontrado"⟩,
         (⟨[⟨1, "a@b.c", "2024-01-01"⟩], 2⟩ : SubStore)) :=
  ⟨(delete_routes_statuses ⟨[], 0⟩ ⟨[⟨1, "a@b.c", "2024-01-01"⟩], 2⟩ 7 2).1,
   (delete_routes_statuses ⟨[], 0⟩ ⟨[⟨1, "a@b.c", "2024-01-01"⟩], 2⟩ 7 2).2.1
     (by decide),
   (delete_routes_statuses ⟨[], 0⟩ ⟨[⟨1, "a@b.c", "2024-01-01"⟩], 2⟩ 7 2).2.2.1
     (by decide)⟩

/-- Counterexample to C4: the connectivity probe `/api/test` also
echoes the caught error message in its 500 body (src/server.js line
244), so the contact endpoint is not the only exception. -/
theorem api_test_leaks_error :
    (apiTestErr "boom").body = .okFalseError "boom"
    ∧ apiTestErr "boom" ≠ apiTestErr "zap" := by decide

/-- C4 amended: on a dependency failure every handler returns a fixed
generic 500 body, with exactly two exceptions: the contact endpoint,
which echoes the provider error in its `detalle` field, and the
connectivity probe, which echoes the caught error in its `error`
field. -/
theorem error_responses_generic (e : String) :
    getProductosErr e = ⟨500, .errorMsg "Error al obtener productos"⟩
    ∧ postProductosErr e = ⟨500, .errorMsg "Error al agregar producto"⟩
    ∧ putProductoErr e = ⟨500, .errorMsg "Error al actualizar producto"⟩
    ∧ deleteProductoErr e = ⟨500, .errorMsg "Error al eliminar producto"⟩
    ∧ suscribirseErr e = ⟨500, .errorMsg "Error al registrar la suscripción"⟩
    ∧ getSuscriptoresErr e
        = ⟨500, .errorMsg "Error al obtener la lista de suscriptores"⟩
    ∧ deleteSuscriptorErr e = ⟨500, .errorMsg "Error al eliminar el suscriptor"⟩
    ∧ contactoErr e
        = ⟨500, .errorDetalle "No se pudo enviar el mensaje. Intenta más tarde." e⟩
    ∧ apiTestErr e = ⟨500, .okFalseError e⟩ :=
  ⟨rfl, rfl, rfl, rfl, rfl, rfl, rfl, rfl, rfl⟩

/-- C7: a product body with nonempty name and category and both price
and stock equal to zero passes the validation (zero is a present value,
not a missing field) and is created with 201. -/
theorem post_producto_zero_boundary (b : ProductoBody) (s : ProdStore)
    (n c : String) (hn : b.nombre = some n) (hn2 : n ≠ "")
    (hc : b.categoria = some c) (hc2 : c ≠ "")
    (hp : b.precio = some 0) (hs : b.stock = some 0) :
    productoInvalid b = false
    ∧ (postProductosHandler b s).1.status = 201
    ∧ (postProductosHandler b s).2.rows
        = s.rows ++ [⟨s.nextId, n, 0, c, 0, b.imagen, b.nueva_coleccion⟩] := by
  have hinv : productoInvalid b = false := by
    simp [productoInvalid, falsyS, hn, hc, hp, hs, hn2, hc2]
  refine ⟨hinv, ?_, ?_⟩ <;>
    simp [postProductosHandler, hinv, hn, hc, hp, hs]

/-- Witness for C7 at a concrete zero-priced, zero-stock body. -/
theorem post_producto_zero_boundary_witness :
    productoInvalid ⟨some "Anillo", some 0, some "anillos", some 0, none, none⟩
      = false
    ∧ (postProductosHandler
        ⟨some "Anillo", some 0, some "anillos", some 0, none, none⟩
        ⟨[], 1⟩).1.status = 201
    ∧ (postProductosHandler
        ⟨some "Anillo", some 0, some "anillos", some 0, none, none⟩
        ⟨[], 1⟩).2.rows
      = [] ++ [⟨1, "Anillo", 0, "anillos", 0, none, none⟩] :=
  post_producto_zero_boundary
    ⟨some "Anillo", some 0, some "anillos", some 0, none, none⟩ ⟨[], 1⟩
    "Anillo" "anillos" rfl (by decide) rfl (by decide) rfl rfl

/-- C8: a contact submission with any of name, email or message falsy
is answered 400 and the mail relay is never invoked, whatever the relay
would have answered. -/
theorem contacto_validation_no_relay (b : ContactBody)
    (relay : Except String Unit)
    (h : falsyS b.nombre = true ∨ falsyS b.email = true
      ∨ falsyS b.mensaje = true) :
    contactoRoute b relay
      = (⟨400, .errorMsg "Todos los campos son obligatorios."⟩, false) := by
  rcases h with h | h | h <;> simp [contactoRoute, h]

/-- Witness for C8: an empty message field with the other fields
present gives 400 without a relay call, even for a relay that would
succeed. -/
theorem contacto_validation_no_relay_witness :
    contactoRoute ⟨some "Ana", some "a@b.c", some ""⟩ (.ok ())
      = (⟨400, .errorMsg "Todos los campos son obligatorios."⟩, false) :=
  contacto_validation_no_relay ⟨some "Ana", some "a@b.c", some ""⟩ (.ok ())
    (Or.inr (Or.inr (by decide)))

/-- C6: subscribing a valid email absent from the store answers 201 and
inserts one row; repeating the identical request answers 200 with the
already-subscribed message, leaves the store unchanged, and exactly one
row with that email exists afterwards. -/
theorem suscribirse_twice (fecha1 fecha2 e : String) (s : SubStore)
    (hv : validEmail e = true) (he : ∀ r ∈ s.rows, r.email ≠ e) :
    (suscribirseHandler fecha1 (some e) s).1
      = ⟨201, .message "¡Gracias por suscribirte! 💌"⟩
    ∧ (suscribirseHandler fecha2 (some e)
        ((suscribirseHandler fecha1 (some e) s).2)).1
      = ⟨200, .message "Ya estás suscrito 🥰"⟩
    ∧ (suscribirseHandler fecha2 (some e)
        ((suscribirseHandler fecha1 (some e) s).2)).2
      = (suscribirseHandler fecha1 (some e) s).2
    ∧ ((suscribirseHandler fecha2 (some e)
        ((suscribirseHandler fecha1 (some e) s).2)).2).rows.countP
        (fun r => r.email = e) = 1 := by
  have hne : e ≠ "" := by
    intro h
    rw [h] at hv
    exact absurd hv (by decide)
  have hany : s.rows.any (fun r => r.email = e) = false := by
    rw [List.any_eq_false]
    intro r hr
    simpa using he r hr
  have h1 : suscribirseHandler fecha1 (some e) s
      = (⟨201, .message "¡Gracias por suscribirte! 💌"⟩,
         ⟨s.rows ++ [⟨s.nextId, e, fecha1⟩], s.nextId + 1⟩) := by
    simp [suscribirseHandler, falsyS, hne, hv, hany]
  have hany2 : (s.rows ++ [(⟨s.nextId, e, fecha1⟩ : Suscriptor)]).any
      (fun r => r.email = e) = true := by
    simp
  have h2 : suscribirseHandler fecha2 (some e)
        ⟨s.rows ++ [⟨s.nextId, e, fecha1⟩], s.nextId + 1⟩
      = (⟨200, .message "Ya estás suscrito 🥰"⟩,
         ⟨s.rows ++ [⟨s.nextId, e, fecha1⟩], s.nextId + 1⟩) := by
    simp [suscribirseHandler, falsyS, hne, hv, hany2]
  have hcount : (s.rows ++ [(⟨s.nextId, e, fecha1⟩ : Suscriptor)]).countP
      (fun r => r.email = e) = 1 := by
    rw [List.countP_append]
    have hz : s.rows.countP (fun r => r.email = e) = 0 := by
      rw [List.countP_eq_zero]
      intro r hr
      simpa using he r hr
    simp [hz]
  rw [h1]
  rw [h2]
  exact ⟨rfl, rfl, rfl, hcount⟩

/-- Witness for C6 at a concrete email and an empty store. -/
theorem suscribirse_twice_witness :
    (suscribirseHandler "2024-01-01" (some "a@b.c") ⟨[], 1⟩).1
      = ⟨201, .message "¡Gracias por suscribirte! 💌"⟩
    ∧ (suscribirseHandler "2024-01-02" (some "a@b.c")
        ((suscribirseHandler "2024-01-01" (some "a@b.c") ⟨[], 1⟩).2)).1
      = ⟨200, .message "Ya estás suscrito 🥰"⟩
    ∧ (suscribirseHandler "2024-01-02" (some "a@b.c")
        ((suscribirseHandler "2024-01-01" (some "a@b.c") ⟨[], 1⟩).2)).2
      = (suscribirseHandler "2024-01-01" (some "a@b.c") ⟨[], 1⟩).2
    ∧ ((suscribirseHandler "2024-01-02" (some "a@b.c")
        ((suscribirseHandler "2024-01-01" (some "a@b.c") ⟨[], 1⟩).2)).2).rows.countP
        (fun r => r.email = "a@b.c") = 1 :=
  suscribirse_twice "2024-01-01" "2024-01-02" "a@b.c" ⟨[], 1⟩ (by decide)
    (by decide)

/-- C10: the public product listing returns a permutation of the stored
rows in strictly descending id order, so the row with the largest id —
the most recently created one, ids being generated monotonically — is
always first. -/
theorem get_productos_sorted (s : ProdStore)
    (hnd : (s.rows.map Producto.id).Nodup) :
    List.Pairwise (fun a b => b.id < a.id) (getProductosRows s)
    ∧ List.Perm (getProductosRows s) s.rows
    ∧ ∀ p ∈ s.rows, (∀ q ∈ s.rows, q.id ≤ p.id) →
        (getProductosRows s).head? = some p := by
  haveI ht : IsTotal Producto (fun a b => b.id ≤ a.id) :=
    ⟨fun a b => Nat.le_total b.id a.id⟩
  haveI htr : IsTrans Producto (fun a b => b.id ≤ a.id) :=
    ⟨fun _ _ _ hab hbc => le_trans hbc hab⟩
  have hsorted : List.Sorted (fun a b => b.id ≤ a.id) (getProductosRows s) :=
    List.sorted_insertionSort _ _
  have hperm : List.Perm (getProductosRows s) s.rows := List.perm_insertionSort _ _
  have hnd2 : ((getProductosRows s).map Producto.id).Nodup :=
    ((hperm.map Producto.id).nodup_iff).mpr hnd
  have hne : List.Pairwise (fun a b : Producto => a.id ≠ b.id)
      (getProductosRows s) := List.pairwise_map.mp hnd2
  have hstrict : List.Pairwise (fun a b => b.id < a.id) (getProductosRows s) :=
    (List.Pairwise.and hsorted hne).imp
      (fun h => lt_of_le_of_ne h.1 (Ne.symm h.2))
  refine ⟨hstrict, hperm, ?_⟩
  intro p hp hmax
  cases hl : getProductosRows s with
  | nil =>
    rw [hl] at hperm
    rw [hperm.symm.eq_nil] at hp
    cases hp
  | cons p0 rest =>
    have hp0 : p0 ∈ s.rows := hperm.mem_iff.mp (by rw [hl]; exact List.mem_cons_self _ _)
    have hpin : p ∈ getProductosRows s := hperm.mem_iff.mpr hp
    rw [hl] at hpin hstrict
    rcases List.mem_cons.mp hpin with rfl | hrest
    · rfl
    · exfalso
      have hlt : p.id < p0.id := (List.pairwise_cons.mp hstrict).1 p hrest
      exact absurd hlt (Nat.not_lt.mpr (hmax p0 hp0))

/-- Witness for C10: in a store created in the order 1, 3, 2 the
listing is strictly descending and the id-3 row comes first. -/
theorem get_productos_sorted_witness :
    List.Pairwise (fun a b => b.id < a.id) (getProductosRows
      ⟨[⟨1, "a", 5, "c", 1, none, none⟩, ⟨3, "b", 2, "c", 1, none, none⟩,
        ⟨2, "d", 3, "c", 1, none, none⟩], 4⟩)
    ∧ (getProductosRows
      ⟨[⟨1, "a", 5, "c", 1, none, none⟩, ⟨3, "b", 2, "c", 1, none, none⟩,
        ⟨2, "d", 3, "c", 1, none, none⟩], 4⟩).head?
      = some ⟨3, "b", 2, "c", 1, none, none⟩ := by
  have h := get_productos_sorted
    ⟨[⟨1, "a", 5, "c", 1, none, none⟩, ⟨3, "b", 2, "c", 1, none, none⟩,
      ⟨2, "d", 3, "c", 1, none, none⟩], 4⟩ (by decide)
  exact ⟨h.1, h.2.2 ⟨3, "b", 2, "c", 1, none, none⟩ (by decide) (by decide)⟩

